import Mathlib

/-!
Shallow embedding of src/src/gdata/base/service.py (the Google Base service
facade of gdata-python-client) and proofs of the specification claims.

The file under src/ contains the facade only; the underlying transport
layer (gdata.service.GDataService, atom.service) and the XML parsing
functions of the gdata.base module are external to the fragment and are
modelled from the specification where a claim depends on them.  Exceptions
raised by the external layer are embedded as an `Except` error channel
that is polymorphic in the exception type.
-/

set_option autoImplicit false

namespace GBase

/-- A Python dict restricted to string keys, embedded as an association
list.  Assignment `d[k] = v` replaces the value at an existing key in
place, otherwise appends. -/
def pyDictSet {β : Type} : List (String × β) → String → β → List (String × β)
  | [], k, v => [(k, v)]
  | (k0, v0) :: rest, k, v =>
      if k0 = k then (k, v) :: rest else (k0, v0) :: pyDictSet rest k v

/-- Lookup in the `d.get(k)` style: `none` means the key is absent. -/
def pyDictGet {β : Type} : List (String × β) → String → Option β
  | [], _ => none
  | (k0, v0) :: rest, k => if k0 = k then some v0 else pyDictGet rest k

/-- Python item access `d[k]`: raises KeyError when the key is absent. -/
def pyDictGetItem {β : Type} (d : List (String × β)) (k : String) :
    Except Unit β :=
  match pyDictGet d k with
  | some v => Except.ok v
  | none => Except.error ()

/-- Python `s.lstrip(chars)`: removes leading characters that are members
of the character set of `chars` (not a leading occurrence of `chars` as a
substring). -/
def pyLstrip (s : String) (chars : String) : String :=
  String.mk (s.toList.dropWhile (fun c => chars.toList.contains c))

/-- Source lines 44-45: `class Error(Exception)` - a marker exception kind
declared by the module and never raised or caught by it. -/
inductive Error : Type
  | mk : Error
deriving DecidableEq

/-- Source lines 48-49: `class RequestError(Error)` - the second declared
marker exception kind, likewise unused by the module. -/
inductive RequestError : Type
  | mk : RequestError
deriving DecidableEq

/-- The result of the external Atom/GData parsing of a response body when
no converter is given: either an object that satisfies
`isinstance(result, atom.Entry)` (carrying its `ToString()` serialized
form) or any other parsed object (a feed, etc.), carried opaquely. -/
inductive RawResult : Type
  | entry (s : String)
  | other (s : String)
deriving DecidableEq

/-- The value returned by the underlying Get/Post/Put of the external
gdata.service layer: the output of the supplied converter, or the raw
parsed object when no converter was supplied. -/
inductive GetResult (α : Type) : Type
  | converted (a : α)
  | raw (r : RawResult)
deriving DecidableEq

/-- Modelled from the spec: entries are opaque XML-backed objects produced
by external parsing functions; `gdata.base.GBaseItemFromString` maps the
string form of a response into a GBaseItem object. -/
structure GBaseItem : Type where
  xml : String
deriving DecidableEq

/-- The value returned by the facade methods Query, InsertItem and
UpdateItem: a converter output, a re-parsed GBaseItem, or the raw result
passed through unchanged. -/
inductive QueryResult (α : Type) : Type
  | converted (a : α)
  | item (i : GBaseItem)
  | raw (r : RawResult)
deriving DecidableEq

/-- Modelled from the spec: result type of the external snippet-feed
parser. -/
structure GBaseSnippetFeed : Type where
  xml : String
deriving DecidableEq

/-- Modelled from the spec: result type of the external item-feed
parser. -/
structure GBaseItemFeed : Type where
  xml : String
deriving DecidableEq

/-- Modelled from the spec: result type of the external attributes-feed
parser. -/
structure GBaseAttributesFeed : Type where
  xml : String
deriving DecidableEq

/-- Modelled from the spec: result type of the external item-types-feed
parser. -/
structure GBaseItemTypesFeed : Type where
  xml : String
deriving DecidableEq

/-- Modelled from the spec: result type of the external locales-feed
parser. -/
structure GBaseLocalesFeed : Type where
  xml : String
deriving DecidableEq

/-- Modelled from the spec: result type of the external single-snippet
parser. -/
structure GBaseSnippet : Type where
  xml : String
deriving DecidableEq

/-- Modelled from the spec: result type of the external attribute-entry
parser. -/
structure GBaseAttributeEntry : Type where
  xml : String
deriving DecidableEq

/-- Modelled from the spec: result type of the external item-type-entry
parser. -/
structure GBaseItemTypeEntry : Type where
  xml : String
deriving DecidableEq

/-- Modelled from the spec: result type of the external generic-entry
parser used by GetLocale. -/
structure GDataEntry : Type where
  xml : String
deriving DecidableEq

/-- Modelled from the spec: `gdata.base.GBaseItemFromString`, the item
parser applied by the fallback re-parse policy. -/
def GBaseItemFromString (s : String) : GBaseItem := ⟨s⟩

/-- Modelled from the spec: the external snippet-feed parser. -/
def GBaseSnippetFeedFromString (s : String) : GBaseSnippetFeed := ⟨s⟩

/-- Modelled from the spec: the external item-feed parser. -/
def GBaseItemFeedFromString (s : String) : GBaseItemFeed := ⟨s⟩

/-- Modelled from the spec: the external attributes-feed parser. -/
def GBaseAttributesFeedFromString (s : String) : GBaseAttributesFeed := ⟨s⟩

/-- Modelled from the spec: the external item-types-feed parser. -/
def GBaseItemTypesFeedFromString (s : String) : GBaseItemTypesFeed := ⟨s⟩

/-- Modelled from the spec: the external locales-feed parser. -/
def GBaseLocalesFeedFromString (s : String) : GBaseLocalesFeed := ⟨s⟩

/-- Modelled from the spec: the external single-snippet parser. -/
def GBaseSnippetFromString (s : String) : GBaseSnippet := ⟨s⟩

/-- Modelled from the spec: the external attribute-entry parser. -/
def GBaseAttributeEntryFromString (s : String) : GBaseAttributeEntry := ⟨s⟩

/-- Modelled from the spec: the external item-type-entry parser. -/
def GBaseItemTypeEntryFromString (s : String) : GBaseItemTypeEntry := ⟨s⟩

/-- Modelled from the spec: the external generic-entry parser. -/
def GDataEntryFromString (s : String) : GDataEntry := ⟨s⟩

/-- Modelled from the spec: the out-of-scope HTTP transport and XML
parsing supplied by the external service library, over an abstract
exception type `ε`.  Each field gives the outcome of one kind of
underlying request (the response body, or an exception), and `parse`
gives the outcome of the external Atom parsing of a body. -/
structure Backend (ε : Type) : Type where
  getBody : String → Except ε String
  postBody : String → String → Option (List (String × String)) → Bool →
    Except ε String
  putBody : String → String → Option (List (String × String)) → Bool →
    Except ε String
  deleteResult : String → Option (List (String × String)) → Bool →
    Except ε Bool
  parse : String → Except ε RawResult

/-- Modelled from the spec: `gdata.service.GDataService.Get`, external to
the fragment.  Performs a GET of the uri; if a converter is supplied,
returns its result on the response body; otherwise returns the parsed
Atom object.  Transport, converter and parse exceptions propagate. -/
def GDataService.Get {ε α : Type} (b : Backend ε) (uri : String)
    (converter : Option (String → Except ε α)) : Except ε (GetResult α) :=
  match b.getBody uri with
  | Except.error e => Except.error e
  | Except.ok body =>
    match converter with
    | some c =>
      match c body with
      | Except.error e => Except.error e
      | Except.ok a => Except.ok (GetResult.converted a)
    | none =>
      match b.parse body with
      | Except.error e => Except.error e
      | Except.ok r => Except.ok (GetResult.raw r)

/-- Modelled from the spec: `gdata.service.GDataService.Post`, external to
the fragment; same response shaping as Get, for a POST of `data` to
`uri`. -/
def GDataService.Post {ε α : Type} (b : Backend ε) (data : String)
    (uri : String) (url_params : Option (List (String × String)))
    (escape_params : Bool) (converter : Option (String → Except ε α)) :
    Except ε (GetResult α) :=
  match b.postBody data uri url_params escape_params with
  | Except.error e => Except.error e
  | Except.ok body =>
    match converter with
    | some c =>
      match c body with
      | Except.error e => Except.error e
      | Except.ok a => Except.ok (GetResult.converted a)
    | none =>
      match b.parse body with
      | Except.error e => Except.error e
      | Except.ok r => Except.ok (GetResult.raw r)

/-- Modelled from the spec: `gdata.service.GDataService.Put`, external to
the fragment; same response shaping as Get, for a PUT of `data` to
`uri`. -/
def GDataService.Put {ε α : Type} (b : Backend ε) (data : String)
    (uri : String) (url_params : Option (List (String × String)))
    (escape_params : Bool) (converter : Option (String → Except ε α)) :
    Except ε (GetResult α) :=
  match b.putBody data uri url_params escape_params with
  | Except.error e => Except.error e
  | Except.ok body =>
    match converter with
    | some c =>
      match c body with
      | Except.error e => Except.error e
      | Except.ok a => Except.ok (GetResult.converted a)
    | none =>
      match b.parse body with
      | Except.error e => Except.error e
      | Except.ok r => Except.ok (GetResult.raw r)

/-- Modelled from the spec: `gdata.service.GDataService.Delete`, external
to the fragment; issues a DELETE at the uri and returns the success
boolean, exceptions propagating. -/
def GDataService.Delete {ε : Type} (b : Backend ε) (uri : String)
    (url_params : Option (List (String × String))) (escape_params : Bool) :
    Except ε Bool :=
  b.deleteResult uri url_params escape_params

/-- Embedding artifact: a Get/Post/Put result returned unchanged by the
facade, viewed at the facade result type (Python needs no such coercion;
no data is altered). -/
def GetResult.pass {α : Type} : GetResult α → QueryResult α
  | GetResult.converted a => QueryResult.converted a
  | GetResult.raw r => QueryResult.raw r

/-- The mutable state of the service handle relevant to the fragment:
`additional_headers` is either a Python dict (some assoc list whose
values may be None, i.e. `Option String`) or a non-dict value such as
None (`none`). -/
structure ServiceState : Type where
  additional_headers : Option (List (String × Option String))
deriving DecidableEq

/-- Source lines 64-67, `GBaseService._SetAPIKey`: if additional_headers
is not a dict it is replaced by an empty dict, then the key X-Google-Key
is assigned the given api_key. -/
def GBaseService._SetAPIKey (s : ServiceState) (api_key : Option String) :
    ServiceState :=
  let d := match s.additional_headers with
    | some d => d
    | none => []
  ⟨some (pyDictSet d "X-Google-Key" api_key)⟩

/-- Source lines 72-76, `GBaseService._GetAPIKey`: returns None when the
key X-Google-Key is absent from additional_headers, else the stored
value.  A membership test on a non-dict additional_headers would raise
(TypeError), embedded as the error case. -/
def GBaseService._GetAPIKey (s : ServiceState) :
    Except Unit (Option String) :=
  match s.additional_headers with
  | none => Except.error ()
  | some d =>
    match pyDictGet d "X-Google-Key" with
    | none => Except.ok none
    | some v => Except.ok v

/-- Modelled from the spec: `gdata.service.GDataService.__init__`,
external to the fragment, stores the given additional_headers mapping on
the service handle. -/
def GDataService.init
    (additional_headers : Option (List (String × Option String))) :
    ServiceState :=
  ⟨additional_headers⟩

/-- Source lines 55-62, `GBaseService.__init__`: delegates to the
GDataService constructor, then assigns `self.api_key = api_key` through
the property setter (lines 69-70 and 81), i.e. `_SetAPIKey`. -/
def GBaseService.init (api_key : Option String)
    (additional_headers : Option (List (String × Option String))) :
    ServiceState :=
  GBaseService._SetAPIKey (GDataService.init additional_headers) api_key

/-- Source lines 84-108, `GBaseService.Query`: `result = self.Get(uri,
converter=converter)`; if converter is given return result; else if the
result is an atom.Entry return `GBaseItemFromString(result.ToString())`;
else return result. -/
def GBaseService.Query {ε α : Type} (b : Backend ε) (uri : String)
    (converter : Option (String → Except ε α)) :
    Except ε (QueryResult α) :=
  match GDataService.Get b uri converter with
  | Except.error e => Except.error e
  | Except.ok result =>
    if converter.isSome then
      Except.ok result.pass
    else
      match result with
      | GetResult.raw (RawResult.entry s) =>
          Except.ok (QueryResult.item (GBaseItemFromString s))
      | _ => Except.ok result.pass

/-- Source lines 110-111: `QuerySnippetsFeed` is a Get with the fixed
snippet-feed converter. -/
def GBaseService.QuerySnippetsFeed {ε : Type} (b : Backend ε)
    (uri : String) : Except ε (GetResult GBaseSnippetFeed) :=
  GDataService.Get b uri
    (some (fun s => Except.ok (GBaseSnippetFeedFromString s)))

/-- Source lines 113-114: `QueryItemsFeed` is a Get with the fixed
item-feed converter. -/
def GBaseService.QueryItemsFeed {ε : Type} (b : Backend ε)
    (uri : String) : Except ε (GetResult GBaseItemFeed) :=
  GDataService.Get b uri
    (some (fun s => Except.ok (GBaseItemFeedFromString s)))

/-- Source lines 116-117: `QueryAttributesFeed` is a Get with the fixed
attributes-feed converter. -/
def GBaseService.QueryAttributesFeed {ε : Type} (b : Backend ε)
    (uri : String) : Except ε (GetResult GBaseAttributesFeed) :=
  GDataService.Get b uri
    (some (fun s => Except.ok (GBaseAttributesFeedFromString s)))

/-- Source lines 119-120: `QueryItemTypesFeed` is a Get with the fixed
item-types-feed converter. -/
def GBaseService.QueryItemTypesFeed {ε : Type} (b : Backend ε)
    (uri : String) : Except ε (GetResult GBaseItemTypesFeed) :=
  GDataService.Get b uri
    (some (fun s => Except.ok (GBaseItemTypesFeedFromString s)))

/-- Source lines 122-123: `QueryLocalesFeed` is a Get with the fixed
locales-feed converter. -/
def GBaseService.QueryLocalesFeed {ε : Type} (b : Backend ε)
    (uri : String) : Except ε (GetResult GBaseLocalesFeed) :=
  GDataService.Get b uri
    (some (fun s => Except.ok (GBaseLocalesFeedFromString s)))

/-- Source lines 125-126: `GetItem` is a Get with the fixed single-item
converter. -/
def GBaseService.GetItem {ε : Type} (b : Backend ε) (uri : String) :
    Except ε (GetResult GBaseItem) :=
  GDataService.Get b uri
    (some (fun s => Except.ok (GBaseItemFromString s)))

/-- Source lines 128-129: `GetSnippet` is a Get with the fixed
single-snippet converter. -/
def GBaseService.GetSnippet {ε : Type} (b : Backend ε) (uri : String) :
    Except ε (GetResult GBaseSnippet) :=
  GDataService.Get b uri
    (some (fun s => Except.ok (GBaseSnippetFromString s)))

/-- Source lines 131-132: `GetAttribute` is a Get with the fixed
attribute-entry converter. -/
def GBaseService.GetAttribute {ε : Type} (b : Backend ε) (uri : String) :
    Except ε (GetResult GBaseAttributeEntry) :=
  GDataService.Get b uri
    (some (fun s => Except.ok (GBaseAttributeEntryFromString s)))

/-- Source lines 134-135: `GetItemType` is a Get with the fixed
item-type-entry converter. -/
def GBaseService.GetItemType {ε : Type} (b : Backend ε) (uri : String) :
    Except ε (GetResult GBaseItemTypeEntry) :=
  GDataService.Get b uri
    (some (fun s => Except.ok (GBaseItemTypeEntryFromString s)))

/-- Source lines 137-138: `GetLocale` is a Get with the fixed
generic-entry converter. -/
def GBaseService.GetLocale {ε : Type} (b : Backend ε) (uri : String) :
    Except ε (GetResult GDataEntry) :=
  GDataService.Get b uri
    (some (fun s => Except.ok (GDataEntryFromString s)))

/-- Source lines 140-166, `GBaseService.InsertItem`: posts the new item
to the literal path /base/feeds/items; then `if not converter and
isinstance(response, atom.Entry)` re-parses through GBaseItemFromString,
else returns the response. -/
def GBaseService.InsertItem {ε α : Type} (b : Backend ε)
    (new_item : String) (url_params : Option (List (String × String)))
    (escape_params : Bool) (converter : Option (String → Except ε α)) :
    Except ε (QueryResult α) :=
  match GDataService.Post b new_item "/base/feeds/items" url_params
      escape_params converter with
  | Except.error e => Except.error e
  | Except.ok response =>
    match converter, response with
    | none, GetResult.raw (RawResult.entry s) =>
        Except.ok (QueryResult.item (GBaseItemFromString s))
    | _, _ => Except.ok response.pass

/-- Source lines 168-184, `GBaseService.DeleteItem`: issues the delete at
the uri built by the format expression
`'/%s' % (item_id.lstrip('http://www.google.com/'))`. -/
def GBaseService.DeleteItem {ε : Type} (b : Backend ε) (item_id : String)
    (url_params : Option (List (String × String)))
    (escape_params : Bool) : Except ε Bool :=
  GDataService.Delete b
    ("/" ++ pyLstrip item_id "http://www.google.com/")
    url_params escape_params

/-- Source lines 186-215, `GBaseService.UpdateItem`: puts the updated
item to the given item_id uri; then the same converter test and fallback
re-parse as InsertItem. -/
def GBaseService.UpdateItem {ε α : Type} (b : Backend ε)
    (item_id : String) (updated_item : String)
    (url_params : Option (List (String × String)))
    (escape_params : Bool) (converter : Option (String → Except ε α)) :
    Except ε (QueryResult α) :=
  match GDataService.Put b updated_item item_id url_params
      escape_params converter with
  | Except.error e => Except.error e
  | Except.ok response =>
    match converter, response with
    | none, GetResult.raw (RawResult.entry s) =>
        Except.ok (QueryResult.item (GBaseItemFromString s))
    | _, _ => Except.ok response.pass

/-- Modelled from the spec: `gdata.service.Query`, external to the
fragment, behaves as a plain mapping from parameter names to string
values; BaseQuery (source lines 218-227) adds only the bq accessor. -/
abbrev BaseQuery : Type := List (String × String)

/-- Source lines 220-221, `BaseQuery._GetBaseQuery`: plain item access
`self['bq']`, raising KeyError when the key is absent. -/
def BaseQuery._GetBaseQuery (q : BaseQuery) : Except Unit String :=
  pyDictGetItem q "bq"

/-- Source lines 223-224, `BaseQuery._SetBaseQuery`: plain item
assignment `self['bq'] = base_query`. -/
def BaseQuery._SetBaseQuery (q : BaseQuery) (base_query : String) :
    BaseQuery :=
  pyDictSet q "bq" base_query

/-! Dictionary lemmas shared by the claim proofs. -/

theorem pyDictGet_pyDictSet_same {β : Type} (d : List (String × β))
    (k : String) (v : β) : pyDictGet (pyDictSet d k v) k = some v := by
  induction d with
  | nil => simp [pyDictSet, pyDictGet]
  | cons hd tl ih =>
    obtain ⟨k0, v0⟩ := hd
    by_cases h : k0 = k
    · simp [pyDictSet, pyDictGet, h]
    · simp [pyDictSet, pyDictGet, h, ih]

theorem pyDictGet_pyDictSet_ne {β : Type} (d : List (String × β))
    (k k' : String) (v : β) (h : k' ≠ k) :
    pyDictGet (pyDictSet d k v) k' = pyDictGet d k' := by
  induction d with
  | nil => simp [pyDictSet, pyDictGet, Ne.symm h]
  | cons hd tl ih =>
    obtain ⟨k0, v0⟩ := hd
    by_cases h0 : k0 = k
    · simp [pyDictSet, pyDictGet, h0, Ne.symm h]
    · simp [pyDictSet, pyDictGet, h0, ih]

/-- A concrete backend used to instantiate witness theorems: every
request succeeds, the response body records the request, and parsing
yields a generic Atom entry. -/
def testBackend : Backend Unit where
  getBody := fun uri => Except.ok ("g " ++ uri)
  postBody := fun data uri _ _ => Except.ok ("p " ++ data ++ " " ++ uri)
  putBody := fun data uri _ _ => Except.ok ("u " ++ data ++ " " ++ uri)
  deleteResult := fun _ _ _ => Except.ok true
  parse := fun s => Except.ok (RawResult.entry s)

/-- A second concrete backend whose parsing yields a non-entry object,
used to instantiate the pass-through branches of witness theorems. -/
def otherBackend : Backend Unit where
  getBody := fun uri => Except.ok ("g " ++ uri)
  postBody := fun data uri _ _ => Except.ok ("p " ++ data ++ " " ++ uri)
  putBody := fun data uri _ _ => Except.ok ("u " ++ data ++ " " ++ uri)
  deleteResult := fun _ _ _ => Except.ok true
  parse := fun s => Except.ok (RawResult.other s)

/-! Claim theorems. -/

/-- C4: setting the api_key property to a value v and then reading
api_key returns v, through the additional-headers mapping under the
header name X-Google-Key; and when that header name is absent from the
additional-headers mapping, reading api_key returns None. -/
theorem apiKey_roundtrip_and_absent_none (s : ServiceState)
    (v : Option String) (d : List (String × Option String))
    (habs : pyDictGet d "X-Google-Key" = none) :
    GBaseService._GetAPIKey (GBaseService._SetAPIKey s v) = Except.ok v ∧
    GBaseService._GetAPIKey ⟨some d⟩ = Except.ok none := by
  constructor
  · simp [GBaseService._SetAPIKey, GBaseService._GetAPIKey,
      pyDictGet_pyDictSet_same]
  · simp [GBaseService._GetAPIKey, habs]

/-- Witness for C4 at a concrete state, key and mapping. -/
theorem apiKey_roundtrip_and_absent_none_witness :
    GBaseService._GetAPIKey
        (GBaseService._SetAPIKey ⟨none⟩ (some "k1")) =
      Except.ok (some "k1") ∧
    GBaseService._GetAPIKey ⟨some []⟩ = Except.ok none :=
  apiKey_roundtrip_and_absent_none ⟨none⟩ (some "k1") [] rfl

/-- C9: after the constructor runs, whatever the api_key argument was
(including None), additional_headers is a dict that contains the key
X-Google-Key, because the constructor assigns self.api_key through the
property setter unconditionally; reading api_key afterwards returns the
argument, so a result of None does not imply the key is absent. -/
theorem init_headers_contain_apiKey_header (api_key : Option String)
    (ah : Option (List (String × Option String))) :
    (∃ d, (GBaseService.init api_key ah).additional_headers = some d ∧
      (pyDictGet d "X-Google-Key").isSome = true) ∧
    GBaseService._GetAPIKey (GBaseService.init api_key ah) =
      Except.ok api_key := by
  constructor
  · refine ⟨pyDictSet (match ah with | some d => d | none => [])
      "X-Google-Key" api_key, ?_, ?_⟩
    · simp [GBaseService.init, GBaseService._SetAPIKey, GDataService.init]
    · simp [pyDictGet_pyDictSet_same]
  · simp [GBaseService.init, GBaseService._SetAPIKey, GDataService.init,
      GBaseService._GetAPIKey, pyDictGet_pyDictSet_same]

/-- C8: setting the bq accessor stores the value under the key bq and
reading bq returns exactly that stored value; setting bq changes no
mapping entry other than bq. -/
theorem bq_roundtrip_and_frame (q : BaseQuery) (v : String) (k : String)
    (hk : k ≠ "bq") :
    BaseQuery._GetBaseQuery (BaseQuery._SetBaseQuery q v) =
      Except.ok v ∧
    pyDictGet (BaseQuery._SetBaseQuery q v) k = pyDictGet q k := by
  constructor
  · simp [BaseQuery._GetBaseQuery, BaseQuery._SetBaseQuery,
      pyDictGetItem, pyDictGet_pyDictSet_same]
  · exact pyDictGet_pyDictSet_ne q "bq" k v hk

/-- Witness for C8 at a concrete query object, value and other key. -/
theorem bq_roundtrip_and_frame_witness :
    BaseQuery._GetBaseQuery
        (BaseQuery._SetBaseQuery [("max-results", "5")] "cars") =
      Except.ok "cars" ∧
    pyDictGet (BaseQuery._SetBaseQuery [("max-results", "5")] "cars")
        "max-results" =
      pyDictGet [("max-results", "5")] "max-results" :=
  bq_roundtrip_and_frame [("max-results", "5")] "cars" "max-results"
    (by decide)

/-- C10: reading the bq accessor of a BaseQuery in which the key bq was
never set raises a lookup error (KeyError), unlike the api_key accessor,
which returns None when its header key is absent. -/
theorem bq_missing_raises_keyError (q : BaseQuery)
    (h : pyDictGet q "bq" = none) (d : List (String × Option String))
    (hd : pyDictGet d "X-Google-Key" = none) :
    BaseQuery._GetBaseQuery q = Except.error () ∧
    GBaseService._GetAPIKey ⟨some d⟩ = Except.ok none := by
  constructor
  · simp [BaseQuery._GetBaseQuery, pyDictGetItem, h]
  · simp [GBaseService._GetAPIKey, hd]

/-- Witness for C10 at a concrete empty query object and header dict. -/
theorem bq_missing_raises_keyError_witness :
    BaseQuery._GetBaseQuery ([] : BaseQuery) = Except.error () ∧
    GBaseService._GetAPIKey ⟨some []⟩ = Except.ok none :=
  bq_missing_raises_keyError [] rfl [] rfl

/-- C2: with a converter c supplied, each Query-family method that takes
a converter parameter (Query, InsertItem, UpdateItem) returns exactly
the value c produces on the response body of its request, with no
further reshaping by the facade. -/
theorem converter_output_returned {ε α : Type} (b : Backend ε)
    (uri new_item item_id updated_item : String)
    (p : Option (List (String × String))) (esc : Bool)
    (c : String → Except ε α) (sg sp su : String) (ag ap au : α)
    (hg : b.getBody uri = Except.ok sg)
    (hcg : c sg = Except.ok ag)
    (hp : b.postBody new_item "/base/feeds/items" p esc = Except.ok sp)
    (hcp : c sp = Except.ok ap)
    (hu : b.putBody updated_item item_id p esc = Except.ok su)
    (hcu : c su = Except.ok au) :
    GBaseService.Query b uri (some c) =
      Except.ok (QueryResult.converted ag) ∧
    GBaseService.InsertItem b new_item p esc (some c) =
      Except.ok (QueryResult.converted ap) ∧
    GBaseService.UpdateItem b item_id updated_item p esc (some c) =
      Except.ok (QueryResult.converted au) := by
  refine ⟨?_, ?_, ?_⟩
  · simp [GBaseService.Query, GDataService.Get, hg, hcg, GetResult.pass]
  · simp [GBaseService.InsertItem, GDataService.Post, hp, hcp,
      GetResult.pass]
  · simp [GBaseService.UpdateItem, GDataService.Put, hu, hcu,
      GetResult.pass]

/-- Witness for C2 on the concrete test backend with the identity
converter. -/
theorem converter_output_returned_witness :
    GBaseService.Query testBackend "/q" (some fun s => Except.ok s) =
      Except.ok (QueryResult.converted "g /q") ∧
    GBaseService.InsertItem testBackend "it" none true
        (some fun s => Except.ok s) =
      Except.ok (QueryResult.converted "p it /base/feeds/items") ∧
    GBaseService.UpdateItem testBackend "/id" "up" none true
        (some fun s => Except.ok s) =
      Except.ok (QueryResult.converted "u up /id") :=
  converter_output_returned testBackend "/q" "it" "/id" "up" none true
    (fun s => Except.ok s) "g /q" "p it /base/feeds/items" "u up /id"
    "g /q" "p it /base/feeds/items" "u up /id"
    rfl rfl rfl rfl rfl rfl

/-- C3: without a converter, Query returns the item-parser re-parse
(GBaseItemFromString of the string form) when the underlying Get result
is a generic Atom entry, and otherwise returns the underlying Get result
unchanged. -/
theorem query_no_converter_fallback {ε α : Type} (b : Backend ε)
    (uri s0 t : String)
    (hg : b.getBody uri = Except.ok s0) :
    (b.parse s0 = Except.ok (RawResult.entry t) →
      GBaseService.Query b uri (none : Option (String → Except ε α)) =
        Except.ok (QueryResult.item (GBaseItemFromString t))) ∧
    (b.parse s0 = Except.ok (RawResult.other t) →
      GBaseService.Query b uri (none : Option (String → Except ε α)) =
        Except.ok (QueryResult.raw (RawResult.other t))) := by
  constructor
  · intro hparse
    simp [GBaseService.Query, GDataService.Get, hg, hparse]
  · intro hparse
    simp [GBaseService.Query, GDataService.Get, hg, hparse,
      GetResult.pass]

/-- Witness for C3 on the two concrete backends: the entry branch
re-parses, the non-entry branch passes through. -/
theorem query_no_converter_fallback_witness :
    GBaseService.Query testBackend "/q"
        (none : Option (String → Except Unit String)) =
      Except.ok (QueryResult.item (GBaseItemFromString "g /q")) ∧
    GBaseService.Query otherBackend "/q"
        (none : Option (String → Except Unit String)) =
      Except.ok (QueryResult.raw (RawResult.other "g /q")) :=
  ⟨(query_no_converter_fallback testBackend "/q" "g /q" "g /q" rfl).1 rfl,
   (query_no_converter_fallback otherBackend "/q" "g /q" "g /q" rfl).2 rfl⟩

/-- C5: InsertItem posts the new item to the fixed collection path
/base/feeds/items and UpdateItem puts to exactly the given item_id uri;
both then apply the same policy as Query: the converter output when a
converter is given, the GBaseItemFromString re-parse of an Atom entry
response otherwise, and the response unchanged otherwise. -/
theorem insert_update_paths_and_policy {ε α : Type} (b : Backend ε)
    (new_item item_id updated_item sp su : String)
    (p : Option (List (String × String))) (esc : Bool)
    (hp : b.postBody new_item "/base/feeds/items" p esc = Except.ok sp)
    (hu : b.putBody updated_item item_id p esc = Except.ok su) :
    ((∀ (c : String → Except ε α) (a : α), c sp = Except.ok a →
      GBaseService.InsertItem b new_item p esc (some c) =
        Except.ok (QueryResult.converted a)) ∧
    (∀ t, b.parse sp = Except.ok (RawResult.entry t) →
      GBaseService.InsertItem b new_item p esc
          (none : Option (String → Except ε α)) =
        Except.ok (QueryResult.item (GBaseItemFromString t))) ∧
    (∀ t, b.parse sp = Except.ok (RawResult.other t) →
      GBaseService.InsertItem b new_item p esc
          (none : Option (String → Except ε α)) =
        Except.ok (QueryResult.raw (RawResult.other t)))) ∧
    ((∀ (c : String → Except ε α) (a : α), c su = Except.ok a →
      GBaseService.UpdateItem b item_id updated_item p esc (some c) =
        Except.ok (QueryResult.converted a)) ∧
    (∀ t, b.parse su = Except.ok (RawResult.entry t) →
      GBaseService.UpdateItem b item_id updated_item p esc
          (none : Option (String → Except ε α)) =
        Except.ok (QueryResult.item (GBaseItemFromString t))) ∧
    (∀ t, b.parse su = Except.ok (RawResult.other t) →
      GBaseService.UpdateItem b item_id updated_item p esc
          (none : Option (String → Except ε α)) =
        Except.ok (QueryResult.raw (RawResult.other t)))) := by
  refine ⟨⟨?_, ?_, ?_⟩, ?_, ?_, ?_⟩
  · intro c a hc
    simp [GBaseService.InsertItem, GDataService.Post, hp, hc,
      GetResult.pass]
  · intro t hparse
    simp [GBaseService.InsertItem, GDataService.Post, hp, hparse]
  · intro t hparse
    simp [GBaseService.InsertItem, GDataService.Post, hp, hparse,
      GetResult.pass]
  · intro c a hc
    simp [GBaseService.UpdateItem, GDataService.Put, hu, hc,
      GetResult.pass]
  · intro t hparse
    simp [GBaseService.UpdateItem, GDataService.Put, hu, hparse]
  · intro t hparse
    simp [GBaseService.UpdateItem, GDataService.Put, hu, hparse,
      GetResult.pass]

/-- Witness for C5 on the concrete backends, covering the converter
branch, the entry re-parse branch and the pass-through branch of both
InsertItem and UpdateItem. -/
theorem insert_update_paths_and_policy_witness :
    GBaseService.InsertItem testBackend "it" none true
        (some fun s => Except.ok s) =
      Except.ok (QueryResult.converted "p it /base/feeds/items") ∧
    GBaseService.InsertItem testBackend "it" none true
        (none : Option (String → Except Unit String)) =
      Except.ok
        (QueryResult.item (GBaseItemFromString "p it /base/feeds/items")) ∧
    GBaseService.InsertItem otherBackend "it" none true
        (none : Option (String → Except Unit String)) =
      Except.ok
        (QueryResult.raw (RawResult.other "p it /base/feeds/items")) ∧
    GBaseService.UpdateItem testBackend "/id" "up" none true
        (none : Option (String → Except Unit String)) =
      Except.ok (QueryResult.item (GBaseItemFromString "u up /id")) ∧
    GBaseService.UpdateItem otherBackend "/id" "up" none true
        (none : Option (String → Except Unit String)) =
      Except.ok (QueryResult.raw (RawResult.other "u up /id")) :=
  ⟨((insert_update_paths_and_policy testBackend "it" "/id" "up"
      "p it /base/feeds/items" "u up /id" none true rfl rfl).1).1
      (fun s => Except.ok s) "p it /base/feeds/items" rfl,
   ((insert_update_paths_and_policy testBackend "it" "/id" "up"
      "p it /base/feeds/items" "u up /id" none true rfl rfl).1).2.1
      "p it /base/feeds/items" rfl,
   ((insert_update_paths_and_policy otherBackend "it" "/id" "up"
      "p it /base/feeds/items" "u up /id" none true rfl rfl).1).2.2
      "p it /base/feeds/items" rfl,
   ((insert_update_paths_and_policy testBackend "it" "/id" "up"
      "p it /base/feeds/items" "u up /id" none true rfl rfl).2).2.1
      "u up /id" rfl,
   ((insert_update_paths_and_policy otherBackend "it" "/id" "up"
      "p it /base/feeds/items" "u up /id" none true rfl rfl).2).2.2
      "u up /id" rfl⟩

/-- C7: each typed wrapper is a GET whose fixed converter is bound to the
corresponding feed or entry parser: the five QueryXFeed variants return
the Get result converted by the matching feed parser, and the five GetX
variants return the Get result converted by a fixed single-entry
parser. -/
theorem typed_wrappers_use_fixed_converters {ε : Type} (b : Backend ε)
    (uri s0 : String) (hg : b.getBody uri = Except.ok s0) :
    GBaseService.QuerySnippetsFeed b uri =
      Except.ok (GetResult.converted (GBaseSnippetFeedFromString s0)) ∧
    GBaseService.QueryItemsFeed b uri =
      Except.ok (GetResult.converted (GBaseItemFeedFromString s0)) ∧
    GBaseService.QueryAttributesFeed b uri =
      Except.ok (GetResult.converted (GBaseAttributesFeedFromString s0)) ∧
    GBaseService.QueryItemTypesFeed b uri =
      Except.ok (GetResult.converted (GBaseItemTypesFeedFromString s0)) ∧
    GBaseService.QueryLocalesFeed b uri =
      Except.ok (GetResult.converted (GBaseLocalesFeedFromString s0)) ∧
    GBaseService.GetItem b uri =
      Except.ok (GetResult.converted (GBaseItemFromString s0)) ∧
    GBaseService.GetSnippet b uri =
      Except.ok (GetResult.converted (GBaseSnippetFromString s0)) ∧
    GBaseService.GetAttribute b uri =
      Except.ok (GetResult.converted (GBaseAttributeEntryFromString s0)) ∧
    GBaseService.GetItemType b uri =
      Except.ok (GetResult.converted (GBaseItemTypeEntryFromString s0)) ∧
    GBaseService.GetLocale b uri =
      Except.ok (GetResult.converted (GDataEntryFromString s0)) := by
  refine ⟨?_, ?_, ?_, ?_, ?_, ?_, ?_, ?_, ?_, ?_⟩ <;>
    simp [GBaseService.QuerySnippetsFeed, GBaseService.QueryItemsFeed,
      GBaseService.QueryAttributesFeed, GBaseService.QueryItemTypesFeed,
      GBaseService.QueryLocalesFeed, GBaseService.GetItem,
      GBaseService.GetSnippet, GBaseService.GetAttribute,
      GBaseService.GetItemType, GBaseService.GetLocale,
      GDataService.Get, hg]

/-- Witness for C7 on the concrete test backend at a concrete uri. -/
theorem typed_wrappers_use_fixed_converters_witness :
    GBaseService.QuerySnippetsFeed testBackend "/f" =
      Except.ok (GetResult.converted (GBaseSnippetFeedFromString "g /f")) ∧
    GBaseService.QueryItemsFeed testBackend "/f" =
      Except.ok (GetResult.converted (GBaseItemFeedFromString "g /f")) ∧
    GBaseService.QueryAttributesFeed testBackend "/f" =
      Except.ok
        (GetResult.converted (GBaseAttributesFeedFromString "g /f")) ∧
    GBaseService.QueryItemTypesFeed testBackend "/f" =
      Except.ok
        (GetResult.converted (GBaseItemTypesFeedFromString "g /f")) ∧
    GBaseService.QueryLocalesFeed testBackend "/f" =
      Except.ok (GetResult.converted (GBaseLocalesFeedFromString "g /f")) ∧
    GBaseService.GetItem testBackend "/f" =
      Except.ok (GetResult.converted (GBaseItemFromString "g /f")) ∧
    GBaseService.GetSnippet testBackend "/f" =
      Except.ok (GetResult.converted (GBaseSnippetFromString "g /f")) ∧
    GBaseService.GetAttribute testBackend "/f" =
      Except.ok
        (GetResult.converted (GBaseAttributeEntryFromString "g /f")) ∧
    GBaseService.GetItemType testBackend "/f" =
      Except.ok
        (GetResult.converted (GBaseItemTypeEntryFromString "g /f")) ∧
    GBaseService.GetLocale testBackend "/f" =
      Except.ok (GetResult.converted (GDataEntryFromString "g /f")) :=
  typed_wrappers_use_fixed_converters testBackend "/f" "g /f" rfl

/-- C6: the facade neither catches nor translates exceptions: each
operation fails with exception e exactly when its single underlying
transport call fails with that same e, for every exception type, so all
failures propagate unchanged and the facade itself produces no exception
of its own (in particular none of the declared marker kinds). -/
theorem facade_propagates_exceptions {ε α : Type} (b : Backend ε)
    (uri new_item item_id updated_item : String)
    (p : Option (List (String × String))) (esc : Bool)
    (conv : Option (String → Except ε α)) (e : ε) :
    (GBaseService.Query b uri conv = Except.error e ↔
      GDataService.Get b uri conv = Except.error e) ∧
    (GBaseService.InsertItem b new_item p esc conv = Except.error e ↔
      GDataService.Post b new_item "/base/feeds/items" p esc conv =
        Except.error e) ∧
    (GBaseService.UpdateItem b item_id updated_item p esc conv =
        Except.error e ↔
      GDataService.Put b updated_item item_id p esc conv =
        Except.error e) ∧
    (GBaseService.DeleteItem b item_id p esc = Except.error e ↔
      GDataService.Delete b
        ("/" ++ pyLstrip item_id "http://www.google.com/") p esc =
        Except.error e) ∧
    (GBaseService.QuerySnippetsFeed b uri = Except.error e ↔
      b.getBody uri = Except.error e) ∧
    (GBaseService.QueryItemsFeed b uri = Except.error e ↔
      b.getBody uri = Except.error e) ∧
    (GBaseService.QueryAttributesFeed b uri = Except.error e ↔
      b.getBody uri = Except.error e) ∧
    (GBaseService.QueryItemTypesFeed b uri = Except.error e ↔
      b.getBody uri = Except.error e) ∧
    (GBaseService.QueryLocalesFeed b uri = Except.error e ↔
      b.getBody uri = Except.error e) ∧
    (GBaseService.GetItem b uri = Except.error e ↔
      b.getBody uri = Except.error e) ∧
    (GBaseService.GetSnippet b uri = Except.error e ↔
      b.getBody uri = Except.error e) ∧
    (GBaseService.GetAttribute b uri = Except.error e ↔
      b.getBody uri = Except.error e) ∧
    (GBaseService.GetItemType b uri = Except.error e ↔
      b.getBody uri = Except.error e) ∧
    (GBaseService.GetLocale b uri = Except.error e ↔
      b.getBody uri = Except.error e) := by
  refine ⟨?_, ?_, ?_, Iff.rfl, ?_, ?_, ?_, ?_, ?_, ?_, ?_, ?_, ?_, ?_⟩
  · cases hres : GDataService.Get b uri conv with
    | error e0 => simp [GBaseService.Query, hres]
    | ok result =>
      cases conv with
      | none =>
        rcases result with a | r
        · simp [GBaseService.Query, hres, GetResult.pass]
        · rcases r with t | t <;>
            simp [GBaseService.Query, hres, GetResult.pass]
      | some c => simp [GBaseService.Query, hres, GetResult.pass]
  · cases hres : GDataService.Post b new_item "/base/feeds/items" p esc
        conv with
    | error e0 => simp [GBaseService.InsertItem, hres]
    | ok response =>
      cases conv with
      | none =>
        rcases response with a | r
        · simp [GBaseService.InsertItem, hres, GetResult.pass]
        · rcases r with t | t <;>
            simp [GBaseService.InsertItem, hres, GetResult.pass]
      | some c => simp [GBaseService.InsertItem, hres, GetResult.pass]
  · cases hres : GDataService.Put b updated_item item_id p esc conv with
    | error e0 => simp [GBaseService.UpdateItem, hres]
    | ok response =>
      cases conv with
      | none =>
        rcases response with a | r
        · simp [GBaseService.UpdateItem, hres, GetResult.pass]
        · rcases r with t | t <;>
            simp [GBaseService.UpdateItem, hres, GetResult.pass]
      | some c => simp [GBaseService.UpdateItem, hres, GetResult.pass]
  all_goals
    cases hg : b.getBody uri with
    | error e0 =>
      simp [GBaseService.QuerySnippetsFeed, GBaseService.QueryItemsFeed,
        GBaseService.QueryAttributesFeed,
        GBaseService.QueryItemTypesFeed, GBaseService.QueryLocalesFeed,
        GBaseService.GetItem, GBaseService.GetSnippet,
        GBaseService.GetAttribute, GBaseService.GetItemType,
        GBaseService.GetLocale, GDataService.Get, hg]
    | ok body =>
      simp [GBaseService.QuerySnippetsFeed, GBaseService.QueryItemsFeed,
        GBaseService.QueryAttributesFeed,
        GBaseService.QueryItemTypesFeed, GBaseService.QueryLocalesFeed,
        GBaseService.GetItem, GBaseService.GetSnippet,
        GBaseService.GetAttribute, GBaseService.GetItemType,
        GBaseService.GetLocale, GDataService.Get, hg]

/-- C1 (refuted on the code): DeleteItem builds its path with
`item_id.lstrip(chars)`, and Python lstrip removes leading characters
drawn from the character set of its argument, not a leading occurrence
of the argument as a substring.  At the item id
http://www.google.com/gems/1 the issued deletion path is /s/1 (the
characters g, e and m belong to the character set and are removed as
well), not /gems/1.  On an id of the documented digits-only form the
path does come out as the claim states, since a digit stops the
stripping. -/
theorem deleteItem_lstrip_is_charset_not_host {ε : Type} (b : Backend ε)
    (p : Option (List (String × String))) (esc : Bool) :
    GBaseService.DeleteItem b "http://www.google.com/gems/1" p esc =
      GDataService.Delete b "/s/1" p esc ∧
    "/s/1" ≠ "/gems/1" ∧
    GBaseService.DeleteItem b
        "http://www.google.com/base/feeds/items/13185446517496042648"
        p esc =
      GDataService.Delete b "/base/feeds/items/13185446517496042648"
        p esc := by
  have h1 : "/" ++ pyLstrip "http://www.google.com/gems/1"
      "http://www.google.com/" = "/s/1" := by decide
  have h2 : "/" ++ pyLstrip
      "http://www.google.com/base/feeds/items/13185446517496042648"
      "http://www.google.com/" =
      "/base/feeds/items/13185446517496042648" := by decide
  refine ⟨?_, by decide, ?_⟩
  · simp [GBaseService.DeleteItem, h1]
  · simp [GBaseService.DeleteItem, h2]

end GBase
